import Mathlib

/-!
Verification of the natural-language query engine of musicMuse
(`src/music_muse.py`, class `MusicMuse`).

The engine is shallowly embedded: text is a `List Char`, each Python regex
used by `parse_natural_language` is translated into an explicit
leftmost-search matcher with the backtracking order of the `re` module,
SQL synthesis (`build_sql_query`) builds the query string plus the ordered
parameter list, and `format_response` returns `Option` (`none` models an
uncaught Python exception).  All definitions are executable.
-/

namespace MusicMuse

/-! ## Text primitives (ASCII model of the Python string operations) -/

abbrev Str := List Char

def lit (s : String) : Str := s.data

/-- Characters matched by the Python `\s` class (ASCII range). -/
def isSpaceC (c : Char) : Bool :=
  c = ' ' || c = '\t' || c = '\n' || c = '\r' || c = '\x0b' || c = '\x0c'

def isDigitC (c : Char) : Bool := '0' ≤ c && c ≤ '9'

def isLowerAZ (c : Char) : Bool := 'a' ≤ c && c ≤ 'z'

def isUpperAZ (c : Char) : Bool := 'A' ≤ c && c ≤ 'Z'

def isAlphaC (c : Char) : Bool := isLowerAZ c || isUpperAZ c

/-- Characters matched by the Python `\w` class (ASCII range). -/
def isWordC (c : Char) : Bool := isAlphaC c || isDigitC c || c = '_'

def toLowerC (c : Char) : Char :=
  if isUpperAZ c then Char.ofNat (c.toNat + 32) else c

def toUpperC (c : Char) : Char :=
  if isLowerAZ c then Char.ofNat (c.toNat - 32) else c

/-- Python `str.lower()` (ASCII). -/
def pyLower (s : Str) : Str := s.map toLowerC

/-- Python `str.strip()`. -/
def pyStrip (s : Str) : Str :=
  ((s.dropWhile isSpaceC).reverse.dropWhile isSpaceC).reverse

/-- Python `str.capitalize()` (ASCII). -/
def pyCapitalize : Str → Str
  | [] => []
  | c :: t => toUpperC c :: t.map toLowerC

def pyTitleAux : Bool → Str → Str
  | _, [] => []
  | prevCased, c :: t =>
    (if isAlphaC c then (if prevCased then toLowerC c else toUpperC c) else c)
      :: pyTitleAux (isAlphaC c) t

/-- Python `str.title()` (ASCII: a letter is upper-cased when the previous
character is not a letter, lower-cased otherwise). -/
def pyTitle (s : Str) : Str := pyTitleAux false s

/-- Python substring test `needle in hay`. -/
def containsSub (needle : Str) : Str → Bool
  | [] => needle.isEmpty
  | c :: t => needle.isPrefixOf (c :: t) || containsSub needle t

/-- One step of Python `str.replace(needle, "")`, with fuel for structural
recursion (the fuel `hay.length` is always sufficient). -/
def removeAllAux (needle : Str) : Nat → Str → Str
  | 0, s => s
  | _ + 1, [] => []
  | fuel + 1, c :: t =>
    if !needle.isEmpty && needle.isPrefixOf (c :: t) then
      removeAllAux needle fuel ((c :: t).drop needle.length)
    else
      c :: removeAllAux needle fuel t

/-- Python `hay.replace(needle, "")`: removes all non-overlapping
occurrences of `needle`, left to right. -/
def removeAll (needle s : Str) : Str := removeAllAux needle s.length s

/-- The preprocessing of `parse_natural_language`: lower-case the query and
strip the unsupported terms (music_muse.py lines 25-28). -/
def cleanQuery (text : Str) : Str :=
  removeAll (lit "stop listening")
    (removeAll (lit "rediscover") (removeAll (lit "discover") (pyLower text)))

/-! ## Search combinators (Python `re.search` leftmost semantics) -/

/-- Try an anchored matcher at every suffix, leftmost first
(the semantics of `re.search`). -/
def searchPos {α : Type} (m : Str → Option α) : Str → Option α
  | [] => m []
  | c :: t =>
    match m (c :: t) with
    | some r => some r
    | none => searchPos m t

/-- Like `searchPos` but the matcher also receives the previous character,
to decide `\b` word boundaries. -/
def searchPosCtx {α : Type} (m : Option Char → Str → Option α) :
    Option Char → Str → Option α
  | prev, [] => m prev []
  | prev, c :: t =>
    match m prev (c :: t) with
    | some r => some r
    | none => searchPosCtx m (some c) t

/-- Consume a literal, or fail. -/
def dropLit (pat : Str) (s : Str) : Option Str :=
  if pat.isPrefixOf s then some (s.drop pat.length) else none

/-- Consume a literal case-insensitively (`re.IGNORECASE`); `pat` is given
in lower case, the consumed text keeps its original case. -/
def dropLitCI (pat : Str) (s : Str) : Option Str :=
  if pyLower (s.take pat.length) = pat then some (s.drop pat.length) else none

def classRunLen (cls : Char → Bool) : Str → Nat
  | [] => 0
  | c :: t => if cls c then classRunLen cls t + 1 else 0

def spaceRunLen : Str → Nat := classRunLen isSpaceC

def dropSpaces (s : Str) : Str := s.drop (spaceRunLen s)

/-- Python `\s+` with maximal munch (used where the following token can
never start with a space, so no backtracking is observable). -/
def spaces1 (s : Str) : Option Str :=
  if spaceRunLen s = 0 then none else some (dropSpaces s)

def digitVal (c : Char) : Nat := c.toNat - '0'.toNat

def digitsToNat (ds : Str) : Nat := ds.foldl (fun acc c => acc * 10 + digitVal c) 0

def digitRunLen : Str → Nat := classRunLen isDigitC

/-- Python `(\d+)` with maximal munch. -/
def readDigits (s : Str) : Option (Nat × Str) :=
  let n := digitRunLen s
  if n = 0 then none else some (digitsToNat (s.take n), s.drop n)

/-- Try `f start`, `f (start+1)`, ... (`count` attempts), first success. -/
def firstSomeUp {α : Type} (f : Nat → Option α) : Nat → Nat → Option α
  | _, 0 => none
  | start, n + 1 =>
    match f start with
    | some r => some r
    | none => firstSomeUp f (start + 1) n

/-- Try `f start`, `f (start-1)`, ... (`count` attempts), first success. -/
def firstSomeDown {α : Type} (f : Nat → Option α) : Nat → Nat → Option α
  | _, 0 => none
  | start, n + 1 =>
    match f start with
    | some r => some r
    | none => firstSomeDown f (start - 1) n

/-- Python `(\d{1,2})` with greedy matching and backtracking: the
continuation is tried with two digits first, then with one. -/
def tryDigits12 {α : Type} (s : Str) (k : Nat → Str → Option α) : Option α :=
  match s with
  | [] => none
  | [c] => if isDigitC c then k (digitVal c) [] else none
  | c :: d :: rest =>
    if isDigitC c then
      if isDigitC d then
        match k (digitVal c * 10 + digitVal d) rest with
        | some r => some r
        | none => k (digitVal c) (d :: rest)
      else k (digitVal c) (d :: rest)
    else none

/-- Python `(?::(\d{2}))?` (optional minutes): greedily take the group,
falling back to skipping it. -/
def tryColonMM {α : Type} (s : Str) (k : Str → Option α) : Option α :=
  match s with
  | ':' :: a :: b :: rest =>
    if isDigitC a && isDigitC b then
      match k rest with
      | some r => some r
      | none => k (':' :: a :: b :: rest)
    else k (':' :: a :: b :: rest)
  | _ => k s

/-! ## The individual regex matchers of `parse_natural_language` -/

inductive Period
  | am
  | pm
deriving DecidableEq

/-- Python `(am|pm)` literal alternation. -/
def tryAmPm (s : Str) : Option (Period × Str) :=
  match dropLit (lit "am") s with
  | some r => some (Period.am, r)
  | none =>
    match dropLit (lit "pm") s with
    | some r => some (Period.pm, r)
    | none => none

/-- Anchored matcher for
`between\s+(\d{1,2})(?::(\d{2}))?\s*(am|pm)\s+and\s+(\d{1,2})(?::(\d{2}))?\s*(am|pm)`
(music_muse.py lines 55-57). -/
def matchBetween (s : Str) : Option (Nat × Period × Nat × Period) :=
  (dropLit (lit "between") s).bind fun r1 =>
  (spaces1 r1).bind fun r2 =>
  tryDigits12 r2 fun h1 r3 =>
  tryColonMM r3 fun r4 =>
  (tryAmPm (dropSpaces r4)).bind fun pr1 =>
  (spaces1 pr1.2).bind fun r7 =>
  (dropLit (lit "and") r7).bind fun r8 =>
  (spaces1 r8).bind fun r9 =>
  tryDigits12 r9 fun h2 r10 =>
  tryColonMM r10 fun r11 =>
  (tryAmPm (dropSpaces r11)).map fun pr2 =>
  (h1, pr1.1, h2, pr2.1)

def betweenSearch (lq : Str) : Option (Nat × Period × Nat × Period) :=
  searchPos matchBetween lq

/-- Anchored matcher for `after\s+(\d{1,2})(?::(\d{2}))?\s*(am|pm)?` and its
`before` twin (lines 101, 110). -/
def matchAfterBefore (word : Str) (s : Str) : Option (Nat × Option Period) :=
  (dropLit word s).bind fun r1 =>
  (spaces1 r1).bind fun r2 =>
  tryDigits12 r2 fun h r3 =>
  tryColonMM r3 fun r4 =>
  some (h, (tryAmPm (dropSpaces r4)).map Prod.fst)

def afterSearch (lq : Str) : Option (Nat × Option Period) :=
  searchPos (matchAfterBefore (lit "after")) lq

def beforeSearch (lq : Str) : Option (Nat × Option Period) :=
  searchPos (matchAfterBefore (lit "before")) lq

/-- 24-hour normalization (lines 63-66, 105-106, 113-115): `pm` adds 12
unless the hour is already at least 12. -/
def to24 (h : Nat) (p : Option Period) : Nat :=
  if p = some Period.pm ∧ h < 12 then h + 12 else h

/-- `\bsome word\b` boundary on the right: end of text or a non-word char. -/
def boundaryOk : Str → Bool
  | [] => true
  | c :: _ => !isWordC c

def wordBefore : Option Char → Bool
  | some c => isWordC c
  | none => false

/-- Anchored matcher for `\b(20\d{2})\b` (line 71). -/
def matchYear (prev : Option Char) (s : Str) : Option Nat :=
  if wordBefore prev then none
  else
    match s with
    | '2' :: '0' :: a :: b :: rest =>
      if isDigitC a && isDigitC b && boundaryOk rest then
        some (2000 + digitVal a * 10 + digitVal b)
      else none
    | _ => none

def yearSearch (lq : Str) : Option Nat := searchPosCtx matchYear none lq

def ordinalSuffixes : List Str := [lit "st", lit "nd", lit "rd", lit "th"]

/-- Anchored matcher for `\b(\d+)(?:st|nd|rd|th)\b` (line 129). -/
def matchOrdinalTok (prev : Option Char) (s : Str) : Option Nat :=
  if wordBefore prev then none
  else
    let n := digitRunLen s
    if n = 0 then none
    else
      let rest := s.drop n
      match ordinalSuffixes.find? (fun suf => suf.isPrefixOf rest) with
      | some suf => if boundaryOk (rest.drop suf.length) then some (digitsToNat (s.take n)) else none
      | none => none

def ordinalSearch (lq : Str) : Option Nat := searchPosCtx matchOrdinalTok none lq

/-- The character class `[a-z\s]`. -/
def azSpace (c : Char) : Bool := isLowerAZ c || isSpaceC c

/-- Common tail `\s+(CLS+?)\s+(w1|w2|...)` with a lazy capture group over a
character class: the leading `\s+` is greedy (backtracked downwards), the
group grows lazily, the inner `\s+` is greedy, the literal alternation is
tried in order.  Returns the captured group. -/
def tailLazyClass (cls : Char → Bool) (words : List Str) (s : Str) : Option Str :=
  let m := spaceRunLen s
  firstSomeDown (fun k1 =>
    if k1 = 0 then none
    else
      let s1 := s.drop k1
      let cmax := classRunLen cls s1
      firstSomeUp (fun L =>
        if L = 0 ∨ cmax < L then none
        else
          let s2 := s1.drop L
          let m2 := spaceRunLen s2
          firstSomeDown (fun k2 =>
            if k2 = 0 then none
            else if words.any (fun w => w.isPrefixOf (s2.drop k2)) then
              some (s1.take L)
            else none) m2 m2) 1 cmax) m m

/-- Anchored matcher for `\d+(?:st|nd|rd|th)\s+([a-z\s]+?)\s+(song|track|album)`
(line 134). -/
def matchNthFilter (s : Str) : Option Str :=
  let n := digitRunLen s
  if n = 0 then none
  else
    let rest := s.drop n
    match ordinalSuffixes.find? (fun suf => suf.isPrefixOf rest) with
    | some suf => tailLazyClass azSpace [lit "song", lit "track", lit "album"] (rest.drop suf.length)
    | none => none

def nthFilterSearch (lq : Str) : Option Str := searchPos matchNthFilter lq

/-- Anchored matcher for `(?:percentage.*of my)\s+([a-z\s]+?)\s+plays`
(line 143): `.*` is greedy, so the rightmost viable `of my` is used. -/
def matchPctArtist (s : Str) : Option Str :=
  (dropLit (lit "percentage") s).bind fun r =>
  let dmax := classRunLen (fun c => c ≠ '\n') r
  firstSomeDown (fun j =>
    if (lit "of my").isPrefixOf (r.drop j) then
      tailLazyClass azSpace [lit "plays"] (r.drop (j + 5))
    else none) dmax (dmax + 1)

def pctArtistSearch (lq : Str) : Option Str := searchPos matchPctArtist lq

/-- Lazy `(.+?)(?:\s+from|$)` tail of the `first listen(?:ed)? to` pattern
(line 150). -/
def lazyDotFromTail (r2 : Str) : Option Str :=
  let dmax := classRunLen (fun c => c ≠ '\n') r2
  firstSomeUp (fun L =>
    if L = 0 ∨ dmax < L then none
    else
      let s2 := r2.drop L
      if s2.isEmpty then some (r2.take L)
      else
        match spaces1 s2 with
        | some s3 => if (lit "from").isPrefixOf s3 then some (r2.take L) else none
        | none => none) 1 dmax

/-- `to\s+` followed by the lazy tail; the `\s+` is greedy and backtracked
(the group can itself start with a space). -/
def afterListenTail (s : Str) : Option Str :=
  (dropLit (lit " to") s).bind fun r1 =>
  let m := spaceRunLen r1
  firstSomeDown (fun k =>
    if k = 0 then none else lazyDotFromTail (r1.drop k)) m m

/-- Anchored matcher for `first listen(?:ed)? to\s+(.+?)(?:\s+from|$)`
(line 150); the optional `ed` is tried greedily first. -/
def matchFirstTo (s : Str) : Option Str :=
  (dropLit (lit "first listen") s).bind fun r1 =>
  match dropLit (lit "ed") r1 with
  | some r1e =>
    match afterListenTail r1e with
    | some g => some g
    | none => afterListenTail r1
  | none => afterListenTail r1

def firstToSearch (lq : Str) : Option Str := searchPos matchFirstTo lq

/-- Anchored matcher for `from\s+(.+)` (line 155): greedy `\s+` backtracked
downwards, greedy `.+` capture. -/
def matchFromAny (s : Str) : Option Str :=
  (dropLit (lit "from") s).bind fun r1 =>
  let m := spaceRunLen r1
  firstSomeDown (fun k =>
    if k = 0 then none
    else
      let r2 := r1.drop k
      let n := classRunLen (fun c => c ≠ '\n') r2
      if n = 0 then none else some (r2.take n)) m m

def fromAnySearch (lq : Str) : Option Str := searchPos matchFromAny lq

/-- Anchored matcher for `first\s+(.+?)\s+(song|track)` (line 159). -/
def matchFirstEntity (s : Str) : Option Str :=
  (dropLit (lit "first") s).bind fun r1 =>
  tailLazyClass (fun c => c ≠ '\n') [lit "song", lit "track"] r1

def firstEntitySearch (lq : Str) : Option Str := searchPos matchFirstEntity lq

/-- Python `re.sub(r'[^\w\s]', '', s)`. -/
def subRemovePunct (s : Str) : Str := s.filter (fun c => isWordC c || isSpaceC c)

/-- `[A-Z][a-z]+`: one upper-case letter then a maximal nonempty lower-case
run; returns the consumed length. -/
def capWord : Str → Option Nat
  | [] => none
  | c :: t =>
    if isUpperAZ c then
      let n := classRunLen isLowerAZ t
      if n = 0 then none else some (n + 1)
    else none

/-- Greedy `(?:\s+[A-Z][a-z]+)*` extension; returns the consumed length
(fuel-based structural recursion, each repetition consumes characters). -/
def capChainExt : Str → Nat → Nat
  | _, 0 => 0
  | s, fuel + 1 =>
    match spaces1 s with
    | none => 0
    | some s1 =>
      match capWord s1 with
      | none => 0
      | some n => spaceRunLen s + n + capChainExt (s1.drop n) fuel

/-- Capture length of `[A-Z][a-z]+(?:\s+[A-Z][a-z]+)*`. -/
def capChainLen (s : Str) : Option Nat :=
  (capWord s).map fun n0 => n0 + capChainExt (s.drop n0) s.length

/-- Anchored matcher for `by\s+([A-Z][a-z]+(?:\s+[A-Z][a-z]+)*)` (and the
`from` twin), run over the original-case text (lines 185, 189). -/
def matchByCap (word : Str) (s : Str) : Option Str :=
  (dropLit word s).bind fun r1 =>
  (spaces1 r1).bind fun r2 =>
  (capChainLen r2).map fun n => r2.take n

def bySearch (text : Str) : Option Str := searchPos (matchByCap (lit "by")) text

def fromCapSearch (text : Str) : Option Str := searchPos (matchByCap (lit "from")) text

/-- `[a-z]+` maximal nonempty run. -/
def azRun (s : Str) : Option Nat :=
  let n := classRunLen isLowerAZ s
  if n = 0 then none else some n

/-- Consume exactly `k` repetitions of `\s+[a-z]+`; returns the consumed
length. -/
def extRepConsume : Str → Nat → Option Nat
  | _, 0 => some 0
  | s, k + 1 =>
    match spaces1 s with
    | none => none
    | some s1 =>
      match azRun s1 with
      | none => none
      | some n => (extRepConsume (s1.drop n) k).map fun rest => spaceRunLen s + n + rest

/-- `\s+(w1|w2|...)` with maximal munch on the spaces. -/
def wordAfterSpaces (words : List Str) (s : Str) : Bool :=
  match spaces1 s with
  | none => false
  | some s1 => words.any fun w => w.isPrefixOf s1

/-- Anchored matcher for
`(?:what|which)\s+([a-z]+(?:\s+[a-z]+){0,3})\s+(song|track|album)` (line 195):
the bounded repetition is greedy, so 3 repetitions are tried first. -/
def matchExtra (s : Str) : Option Str :=
  (match dropLit (lit "what") s with
   | some r => some r
   | none => dropLit (lit "which") s).bind fun r1 =>
  (spaces1 r1).bind fun r2 =>
  (azRun r2).bind fun n0 =>
  firstSomeDown (fun kreps =>
    match extRepConsume (r2.drop n0) kreps with
    | none => none
    | some ext =>
      if wordAfterSpaces [lit "song", lit "track", lit "album"] (r2.drop (n0 + ext)) then
        some (r2.take (n0 + ext))
      else none) 3 4

def extraFilterSearch (lq : Str) : Option Str := searchPos matchExtra lq

/-- Anchored matcher for `my favorite\s+([a-z\s]+?)\s+(song|track|album)`
(line 204). -/
def matchFav (s : Str) : Option Str :=
  (dropLit (lit "my favorite") s).bind fun r1 =>
  tailLazyClass azSpace [lit "song", lit "track", lit "album"] r1

def favSearch (lq : Str) : Option Str := searchPos matchFav lq

/-- The keyword alternation of the limit pattern (line 256). -/
def kwList : List Str :=
  [lit "top", lit "skipped", lit "most listened", lit "most played",
   lit "streamed", lit "replay", lit "replayed", lit "favorite", lit "binge-listen"]

/-- The reduced keyword alternation of the favorite check (line 276):
`favorite` and `binge-listen` are absent there. -/
def kwListNoFav : List Str :=
  [lit "top", lit "skipped", lit "most listened", lit "most played",
   lit "streamed", lit "replay", lit "replayed"]

/-- Anchored matcher for `(?:kw1|kw2|...)\s+(\d+)`: alternatives in order,
each continued by `\s+` and a digit run. -/
def matchKwNum : List Str → Str → Option Nat
  | [], _ => none
  | w :: ws, s =>
    match (dropLit w s).bind (fun r => (spaces1 r).bind fun r2 => (readDigits r2).map Prod.fst) with
    | some n => some n
    | none => matchKwNum ws s

def kwNumSearch (kws : List Str) (lq : Str) : Option Nat := searchPos (matchKwNum kws) lq

/-- Anchored matcher for `what\s+(\d+)\s+(tracks|albums|artists|songs)`
(line 261). -/
def matchAltLimit (s : Str) : Option Nat :=
  (dropLit (lit "what") s).bind fun r1 =>
  (spaces1 r1).bind fun r2 =>
  (readDigits r2).bind fun nr =>
  if wordAfterSpaces [lit "tracks", lit "albums", lit "artists", lit "songs"] nr.2 then
    some nr.1
  else none

def altNumSearch (lq : Str) : Option Nat := searchPos matchAltLimit lq

/-- Anchored matcher for `exactly\s+(\d+)\s+times` (line 251). -/
def matchExactly (s : Str) : Option Nat :=
  (dropLit (lit "exactly") s).bind fun r1 =>
  (spaces1 r1).bind fun r2 =>
  (readDigits r2).bind fun nr =>
  (spaces1 nr.2).bind fun r4 =>
  (dropLit (lit "times") r4).map fun _ => nr.1

def playCountSearch (lq : Str) : Option Nat := searchPos matchExactly lq

/-- Anchored matcher for a `\bw\b` whole-word occurrence. -/
def matchWordB (w : Str) (prev : Option Char) (s : Str) : Option Unit :=
  if wordBefore prev then none
  else (dropLit w s).bind fun r => if boundaryOk r then some () else none

/-- `re.search(rf"\b{w}\b", s, re.IGNORECASE)` as a Boolean, with `w` in
lower case and `s` already lower-cased by the caller. -/
def wordSearch (w : Str) (s : Str) : Bool := (searchPosCtx (matchWordB w) none s).isSome

/-- Anchored matcher for `during (?:my|the) ([\w\s]+)` under `re.IGNORECASE`
(line 284); the capture keeps the original case. -/
def matchEvent (s : Str) : Option Str :=
  (dropLitCI (lit "during ") s).bind fun r1 =>
  (match dropLitCI (lit "my ") r1 with
   | some r => some r
   | none => dropLitCI (lit "the ") r1).bind fun r2 =>
  let n := classRunLen (fun c => isWordC c || isSpaceC c) r2
  if n = 0 then none else some (r2.take n)

/-- The event-name extraction of lines 284-286 (`group(1).strip()`). -/
def eventNameSearch (text : Str) : Option Str := (searchPos matchEvent text).map pyStrip

/-! ## Data model -/

inductive EntityType
  | artist
  | track
  | album
deriving DecidableEq

inductive Action
  | top
  | skipped
  | first
  | last
  | nth
  | percentage
deriving DecidableEq

inductive Season
  | summer
  | winter
  | fall
  | spring
deriving DecidableEq

/-- The dictionary returned by `get_event_dates` (lines 360-364); the
`end_date` already contains the `or today` substitution performed there. -/
structure EventData where
  start_date : Str
  end_date : Str
  record_count : Nat
deriving DecidableEq

/-- The `parsed` dictionary of `parse_natural_language` (lines 30-52 plus
the `shuffle` key added at lines 231-235). -/
structure Parsed where
  year : Option Nat
  day_of_week : Option Nat
  time_after : Option Nat
  time_before : Option Nat
  season : Option Season
  month : Option Nat
  action : Action
  entity_type : EntityType
  limit : Nat
  filter_value : Option Str
  platform : Option Str
  country : Option Str
  mood : Option Str
  shuffle : Option Bool
  reason_start : Option Str
  play_count : Option Nat
  nth : Option Nat
  use_count : Bool
  start_date : Option Str
  end_date : Option Str
  event_name : Option Str
  event_record_count : Option Nat
deriving DecidableEq

/-- Python truthiness of an optional string (`None` and `""` are falsy). -/
def strTruthy : Option Str → Bool
  | some s => !s.isEmpty
  | none => false

/-- Python truthiness of an optional integer (`None` and `0` are falsy). -/
def natTruthy : Option Nat → Bool
  | some n => n ≠ 0
  | none => false

/-! ## Field extraction (mirroring the statement order of lines 54-300) -/

def monthList : List (Str × Nat) :=
  [(lit "january", 1), (lit "february", 2), (lit "march", 3), (lit "april", 4),
   (lit "may", 5), (lit "june", 6), (lit "july", 7), (lit "august", 8),
   (lit "september", 9), (lit "october", 10), (lit "november", 11), (lit "december", 12)]

/-- Month detection (lines 78-87): first month name, in dictionary order,
occurring as a substring. -/
def parseMonth (lq : Str) : Option Nat :=
  (monthList.find? fun p => containsSub p.1 lq).map Prod.snd

def dowList : List (Str × Nat) :=
  [(lit "sunday", 0), (lit "monday", 1), (lit "tuesday", 2), (lit "wednesday", 3),
   (lit "thursday", 4), (lit "friday", 5), (lit "saturday", 6)]

/-- Day-of-week detection (lines 89-97), Sunday = 0. -/
def parseDow (lq : Str) : Option Nat :=
  (dowList.find? fun p => containsSub p.1 lq).map Prod.snd

/-- Year extraction (lines 70-76): first `20\d\d` token, else the current
year when the phrase `this year` occurs. -/
def parseYearField (nowYear : Nat) (lq : Str) : Option Nat :=
  match yearSearch lq with
  | some y => some y
  | none => if containsSub (lit "this year") lq then some nowYear else none

/-- Time-of-day extraction (lines 54-68 and 99-116): the `between` pattern
sets both bounds; otherwise `after` and `before` are searched independently. -/
def parseTimes (lq : Str) : Option Nat × Option Nat :=
  match betweenSearch lq with
  | some q => (some (to24 q.1 (some q.2.1)), some (to24 q.2.2.1 (some q.2.2.2)))
  | none =>
    ((afterSearch lq).map fun hp => to24 hp.1 hp.2,
     (beforeSearch lq).map fun hp => to24 hp.1 hp.2)

/-- Season detection (lines 118-126). -/
def parseSeason (lq : Str) : Option Season :=
  if containsSub (lit "summer") lq then some Season.summer
  else if containsSub (lit "winter") lq then some Season.winter
  else if containsSub (lit "fall") lq || containsSub (lit "autumn") lq then some Season.fall
  else if containsSub (lit "spring") lq then some Season.spring
  else none

/-- The condition of the `first` branch (line 148). -/
def firstCond (lq : Str) : Bool :=
  containsSub (lit "first listen") lq ||
    (containsSub (lit "first") lq && containsSub (lit "listen") lq)

/-- Action resolution (lines 128-168).  In the source the later assignments
override the earlier ones (ordinal, then `percentage`, then `first`, with
`skipped`/`top` only as default), so the if-chain below tests in the
reverse order. -/
def parseAction (lq : Str) : Action :=
  if firstCond lq then Action.first
  else if containsSub (lit "percentage") lq then Action.percentage
  else if (ordinalSearch lq).isSome then Action.nth
  else if containsSub (lit "skip") lq || containsSub (lit "skipped") lq then Action.skipped
  else Action.top

/-- Entity-type resolution (lines 170-178). -/
def parseEntity (lq : Str) : EntityType :=
  if containsSub (lit "artist") lq then EntityType.artist
  else if containsSub (lit "track") lq || containsSub (lit "song") lq then EntityType.track
  else if containsSub (lit "album") lq then EntityType.album
  else EntityType.artist

/-- The stop-list of line 181. -/
def commonPhrases : List Str :=
  [lit "what are my top", lit "what were my top", lit "my top",
   lit "my favorite", lit "are my top"]

/-- Filter-value extraction: the whole override chain of lines 133-136,
141-145, 150-161, 184-214, in statement order. -/
def parseFilterValue (query_text lq : Str) (et : EntityType) : Option Str :=
  let f0 : Option Str :=
    match ordinalSearch lq with
    | some _ => (nthFilterSearch lq).map pyStrip
    | none => none
  let f1 : Option Str :=
    if containsSub (lit "percentage") lq && !strTruthy f0 then
      match pctArtistSearch lq with
      | some g => some (pyTitle (pyStrip g))
      | none => f0
    else f0
  let f2 : Option Str :=
    if firstCond lq then
      match firstToSearch lq with
      | some g => some (pyStrip (subRemovePunct g))
      | none =>
        match fromAnySearch lq with
        | some g => some (pyStrip g)
        | none => f1
    else f1
  let f3 : Option Str :=
    if firstCond lq && !strTruthy f2 then
      match firstEntitySearch lq with
      | some g => some (pyStrip g)
      | none => f2
    else f2
  let f4 : Option Str :=
    if !strTruthy f3 then
      match bySearch query_text with
      | some g => some (pyStrip g)
      | none =>
        match fromCapSearch query_text with
        | some g => some (pyStrip g)
        | none => f3
    else f3
  let f5 : Option Str :=
    if !strTruthy f4 && (et = EntityType.track || et = EntityType.album) then
      match extraFilterSearch lq with
      | some cand =>
        let c := pyStrip cand
        if commonPhrases.contains (pyLower c) then f4 else some (pyTitle c)
      | none => f4
    else f4
  let f6 : Option Str :=
    if containsSub (lit "my favorite") lq && !strTruthy f5 then
      match favSearch lq with
      | some cand =>
        let c := pyStrip cand
        if commonPhrases.contains (pyLower c) then f5 else some (pyTitle c)
      | none => f5
    else f5
  if strTruthy f6 && commonPhrases.contains (pyLower (f6.getD [])) then none else f6

def platforms : List Str :=
  [lit "ios", lit "android", lit "spotify", lit "apple music",
   lit "youtube", lit "soundcloud", lit "pandora"]

/-- Platform filter (lines 216-221). -/
def parsePlatform (lq : Str) : Option Str := platforms.find? fun p => containsSub p lq

def countries : List Str := [lit "mexico", lit "uk", lit "canada", lit "japan", lit "usa"]

/-- Country filter (lines 223-228): matches `in <country>`. -/
def parseCountry (lq : Str) : Option Str :=
  countries.find? fun c => containsSub (lit "in " ++ c) lq

/-- Shuffle filter (lines 230-235). -/
def parseShuffle (lq : Str) : Option Bool :=
  if containsSub (lit "shuffle") lq then
    some (!(containsSub (lit "not shuffle") lq || containsSub (lit "without shuffle") lq))
  else none

def moods : List Str :=
  [lit "chill", lit "sad", lit "happy", lit "focus", lit "high-energy",
   lit "workout", lit "rain", lit "snow", lit "holiday", lit "christmas"]

/-- Mood filter (lines 237-242). -/
def parseMood (lq : Str) : Option Str := moods.find? fun m => containsSub m lq

/-- Reason-start filter (lines 244-248). -/
def parseReason (lq : Str) : Option Str :=
  if containsSub (lit "playlist") lq then some (lit "playlist")
  else if containsSub (lit "voice command") lq then some (lit "voice command")
  else none

/-- Per-entity singular-noun condition of lines 267-273, evaluated against
the original-case text under `re.IGNORECASE`. -/
def singularCond (query_text : Str) (et : EntityType) : Bool :=
  let lt := pyLower query_text
  match et with
  | EntityType.track => wordSearch (lit "song") lt && !wordSearch (lit "songs") lt
  | EntityType.album => wordSearch (lit "album") lt && !wordSearch (lit "albums") lt
  | EntityType.artist => wordSearch (lit "artist") lt && !wordSearch (lit "artists") lt

/-- The favorite override of lines 275-277: `favorite` occurs but no
number follows one of the non-favorite ranking keywords. -/
def favCond (lq : Str) : Bool :=
  containsSub (lit "favorite") lq && (kwNumSearch kwListNoFav lq).isNone

/-- Limit determination (lines 255-277): explicit keyword number (capped at
20), else the `what N <plural>` pattern, else default 5; then the
implicit-singular overwrite, then the favorite override. -/
def parseLimit (query_text lq : Str) (et : EntityType) : Nat :=
  let l1 : Nat :=
    match kwNumSearch kwList lq with
    | some n => min n 20
    | none =>
      match altNumSearch lq with
      | some n => min n 20
      | none => 5
  let l2 : Nat :=
    match kwNumSearch kwList lq with
    | some _ => l1
    | none => if singularCond query_text et then 1 else l1
  if favCond lq then 5 else l2

/-- `get_event_dates` (lines 302-375): without a `user_id` the store is
never consulted; otherwise the user-scoped fuzzy lookup is modelled by the
abstract store function `es` (exceptions and misses both yield `none`). -/
def get_event_dates (uid : Option Nat) (es : Str → Option EventData) (name : Str) :
    Option EventData :=
  match uid with
  | none => none
  | some _ => es name

/-- The life-event block of lines 283-298, returning
`(start_date, end_date, event_name, event_record_count)`.  The source
guards with `if event_match and self.user_id is not None`; matching on the
user id first is equivalent for these pure conditions. -/
def parseEvent (uid : Option Nat) (es : Str → Option EventData) (text : Str) :
    Option Str × Option Str × Option Str × Option Nat :=
  match uid with
  | none => (none, none, none, none)
  | some u =>
    match eventNameSearch text with
    | none => (none, none, none, none)
    | some nm =>
      match get_event_dates (some u) es nm with
      | none => (none, none, none, none)
      | some d => (some d.start_date, some d.end_date, some nm, some d.record_count)

/-- `parse_natural_language` (lines 18-300): the merge of all extraction
rules into the `parsed` record.  `nowYear` models `datetime.now().year`;
`es` models the event-store lookup capability. -/
def parse_natural_language (uid : Option Nat) (es : Str → Option EventData)
    (nowYear : Nat) (query_text : Str) : Parsed :=
  let lq := cleanQuery query_text
  let times := parseTimes lq
  let et := parseEntity lq
  let ev := parseEvent uid es query_text
  { year := parseYearField nowYear lq
    day_of_week := parseDow lq
    time_after := times.1
    time_before := times.2
    season := parseSeason lq
    month := parseMonth lq
    action := parseAction lq
    entity_type := et
    limit := parseLimit query_text lq et
    filter_value := parseFilterValue query_text lq et
    platform := parsePlatform lq
    country := parseCountry lq
    mood := parseMood lq
    shuffle := parseShuffle lq
    reason_start := parseReason lq
    play_count := playCountSearch lq
    nth := ordinalSearch lq
    use_count := containsSub (lit "most times") lq || containsSub (lit "most frequently") lq
    start_date := ev.1
    end_date := ev.2.1
    event_name := ev.2.2.1
    event_record_count := ev.2.2.2 }

/-! ## Query synthesis (`build_sql_query`, lines 377-577) -/

inductive Param
  | pint (n : Nat)
  | pstr (s : Str)
  | pbool (b : Bool)
deriving DecidableEq

/-- The ILIKE pattern `%v%` built for every textual filter. -/
def pctWrap (v : Str) : Str := lit "%" ++ v ++ lit "%"

def base_join : Str :=
  lit "FROM listening_history lh JOIN tracks t ON lh.track_id = t.track_id JOIN albums a ON t.album_id = a.album_id JOIN artists ar ON a.artist_id = ar.artist_id "

def hourGEClause : Str := lit "EXTRACT(HOUR FROM lh.timestamp) >= %s"

def hourLTClause : Str := lit "EXTRACT(HOUR FROM lh.timestamp) < %s"

/-- The stop-list used inside `build_sql_query` (line 423); note the extra
entry `were my top` compared with the parse-time list. -/
def buildCommonPhrases : List Str :=
  [lit "what are my top", lit "what were my top", lit "my top",
   lit "my favorite", lit "are my top", lit "were my top"]

def uidItem (uid : Option Nat) : Option (Str × List Param) :=
  match uid with
  | some u => some (lit "lh.user_id = %s", [Param.pint u])
  | none => none

def yearItem (p : Parsed) : Option (Str × List Param) :=
  match p.year with
  | some y => if y ≠ 0 then some (lit "EXTRACT(YEAR FROM lh.timestamp) = %s", [Param.pint y]) else none
  | none => none

def dowItem (p : Parsed) : Option (Str × List Param) :=
  match p.day_of_week with
  | some d => some (lit "EXTRACT(DOW FROM lh.timestamp) = %s", [Param.pint d])
  | none => none

def afterItem (p : Parsed) : Option (Str × List Param) :=
  match p.time_after with
  | some h => some (hourGEClause, [Param.pint h])
  | none => none

def beforeItem (p : Parsed) : Option (Str × List Param) :=
  match p.time_before with
  | some h => some (hourLTClause, [Param.pint h])
  | none => none

def monthSeasonItem (p : Parsed) : Option (Str × List Param) :=
  match p.month with
  | some m => some (lit "EXTRACT(MONTH FROM lh.timestamp) = %s", [Param.pint m])
  | none =>
    match p.season with
    | some Season.summer => some (lit "EXTRACT(MONTH FROM lh.timestamp) IN (6, 7, 8)", [])
    | some Season.winter => some (lit "EXTRACT(MONTH FROM lh.timestamp) IN (12, 1, 2)", [])
    | some Season.fall => some (lit "EXTRACT(MONTH FROM lh.timestamp) IN (9, 10, 11)", [])
    | some Season.spring => some (lit "EXTRACT(MONTH FROM lh.timestamp) IN (3, 4, 5)", [])
    | none => none

def filterItem (p : Parsed) : Option (Str × List Param) :=
  match p.filter_value with
  | some v =>
    if !v.isEmpty && !(buildCommonPhrases.contains (pyLower v)) then
      some (lit "ar.artist_name ILIKE %s", [Param.pstr (pctWrap v)])
    else none
  | none => none

def platformItem (p : Parsed) : Option (Str × List Param) :=
  match p.platform with
  | some v => if !v.isEmpty then some (lit "lh.platform ILIKE %s", [Param.pstr (pctWrap v)]) else none
  | none => none

def countryItem (p : Parsed) : Option (Str × List Param) :=
  match p.country with
  | some v => if !v.isEmpty then some (lit "lh.country ILIKE %s", [Param.pstr (pctWrap v)]) else none
  | none => none

def shuffleItem (p : Parsed) : Option (Str × List Param) :=
  match p.shuffle with
  | some b => some (lit "lh.shuffle = %s", [Param.pbool b])
  | none => none

def moodItem (p : Parsed) : Option (Str × List Param) :=
  match p.mood with
  | some v => if !v.isEmpty then some (lit "lh.moods ILIKE %s", [Param.pstr (pctWrap v)]) else none
  | none => none

def reasonItem (p : Parsed) : Option (Str × List Param) :=
  match p.reason_start with
  | some v => if !v.isEmpty then some (lit "lh.reason_start ILIKE %s", [Param.pstr (pctWrap v)]) else none
  | none => none

def dateItem (p : Parsed) : Option (Str × List Param) :=
  if strTruthy p.start_date && strTruthy p.end_date then
    some (lit "lh.timestamp::date BETWEEN %s::date AND %s::date",
      [Param.pstr (p.start_date.getD []), Param.pstr (p.end_date.getD [])])
  else none

/-- The `(where_clauses, params)` pairs accumulated by lines 389-458, in
the source's append order. -/
def whereItems (uid : Option Nat) (p : Parsed) : List (Str × List Param) :=
  List.filterMap id
    [uidItem uid, yearItem p, dowItem p, afterItem p, beforeItem p,
     monthSeasonItem p, filterItem p, platformItem p, countryItem p,
     shuffleItem p, moodItem p, reasonItem p, dateItem p]

def joinSep (sep : Str) : List Str → Str
  | [] => []
  | [x] => x
  | x :: y :: t => x ++ sep ++ joinSep sep (y :: t)

/-- Line 460: `"WHERE " + " AND ".join(where_clauses)` or empty. -/
def whereClauseStr (items : List (Str × List Param)) : Str :=
  if items.isEmpty then [] else lit "WHERE " ++ joinSep (lit " AND ") (items.map Prod.fst)

def whereParams (items : List (Str × List Param)) : List Param :=
  items.foldr (fun it acc => it.2 ++ acc) []

def firstSelect : EntityType → Str
  | EntityType.artist => lit "ar.artist_name AS entity, lh.timestamp AS first_listen"
  | EntityType.track => lit "t.track_name AS entity, ar.artist_name AS sub_entity, lh.timestamp AS first_listen"
  | EntityType.album => lit "a.album_name AS entity, ar.artist_name AS sub_entity, lh.timestamp AS first_listen"

def listenSelect : EntityType → Str
  | EntityType.artist => lit "ar.artist_name AS entity, lh.timestamp AS listen_time"
  | EntityType.track => lit "t.track_name AS entity, ar.artist_name AS sub_entity, lh.timestamp AS listen_time"
  | EntityType.album => lit "a.album_name AS entity, ar.artist_name AS sub_entity, lh.timestamp AS listen_time"

def groupClause : EntityType → Str
  | EntityType.artist => lit "ar.artist_name"
  | EntityType.track => lit "t.track_name, ar.artist_name"
  | EntityType.album => lit "a.album_name, ar.artist_name"

def topSelect : EntityType → Str
  | EntityType.artist => lit "ar.artist_name AS entity"
  | EntityType.track => lit "t.track_name AS entity, ar.artist_name AS sub_entity"
  | EntityType.album => lit "a.album_name AS entity, ar.artist_name AS sub_entity"

/-- Python truthiness of the `nth` value (line 489: `parsed.get("nth")`). -/
def nthTruthy : Option Nat → Bool
  | some n => n ≠ 0
  | none => false

/-- `build_sql_query` (lines 377-577): the SQL string and the ordered
parameter list.  For `skipped`/`top` the limit parameter is twice the
parsed limit (line 540). -/
def build_sql_query (uid : Option Nat) (p : Parsed) : Str × List Param :=
  let items := whereItems uid p
  let wc := whereClauseStr items
  let params := whereParams items
  if p.action = Action.first then
    (lit "SELECT " ++ firstSelect p.entity_type ++ lit " " ++ base_join ++ lit " " ++ wc ++
       lit " ORDER BY lh.timestamp ASC LIMIT 1;", params)
  else if p.action = Action.percentage then
    (lit "SELECT COUNT(*) FILTER (WHERE lh.skipped = TRUE) AS skipped_count, COUNT(*) AS total_count " ++
       base_join ++ lit " " ++ wc ++ lit ";", params)
  else if p.action = Action.nth ∧ nthTruthy p.nth = true then
    (lit "SELECT " ++ listenSelect p.entity_type ++ lit " " ++ base_join ++ lit " " ++ wc ++
       lit " ORDER BY lh.timestamp ASC OFFSET %s LIMIT 1;",
     params ++ [Param.pint (p.nth.getD 0 - 1)])
  else if p.action = Action.last then
    (lit "SELECT " ++ listenSelect p.entity_type ++ lit " " ++ base_join ++ lit " " ++ wc ++
       lit " ORDER BY lh.timestamp DESC LIMIT 1;", params)
  else if p.action = Action.skipped then
    let havingStr : Str :=
      match p.play_count with
      | some _ => lit "HAVING COUNT(*) = %s"
      | none => []
    let params2 : List Param :=
      match p.play_count with
      | some pc => params ++ [Param.pint pc]
      | none => params
    (lit "SELECT " ++ topSelect p.entity_type ++ lit ", COUNT(*) AS skip_count " ++ base_join ++
       lit " " ++ wc ++ lit " GROUP BY " ++ groupClause p.entity_type ++ lit " " ++ havingStr ++
       lit " ORDER BY skip_count DESC LIMIT %s;",
     params2 ++ [Param.pint (p.limit * 2)])
  else if p.action = Action.top then
    if p.use_count then
      (lit "SELECT " ++ topSelect p.entity_type ++ lit ", COUNT(*) AS play_count " ++ base_join ++
         lit " " ++ wc ++ lit " GROUP BY " ++ groupClause p.entity_type ++
         lit " ORDER BY play_count DESC LIMIT %s;",
       params ++ [Param.pint (p.limit * 2)])
    else
      (lit "SELECT " ++ topSelect p.entity_type ++ lit ", SUM(lh.ms_played) AS total_ms " ++ base_join ++
         lit " " ++ wc ++ lit " GROUP BY " ++ groupClause p.entity_type ++
         lit " ORDER BY total_ms DESC LIMIT %s;",
       params ++ [Param.pint (p.limit * 2)])
  else
    (lit "SELECT %s AS error_msg;", [Param.pstr (lit "No recognized action in your query.")])

/-! ## Result rows and response formatting (lines 579-787) -/

/-- A cell of a result row: the store returns strings (names, rendered
timestamps and dates) and integers (counts, durations). -/
inductive Cell
  | str (s : Str)
  | int (n : Int)
deriving DecidableEq

abbrev Row := List Cell

def natStr (n : Nat) : Str := Nat.toDigits 10 n

def intStr (n : Int) : Str := (Int.repr n).data

/-- Python `str(cell)` / f-string interpolation of a cell. -/
def cellStr : Cell → Str
  | Cell.str s => s
  | Cell.int n => intStr n

/-- The suffix chosen by `ordinal` (lines 582-585): `th` for 11-13 mod
100, else the dictionary lookup on the last digit with default `th`. -/
def ordinalSuffix (n : Nat) : Str :=
  if 11 ≤ n % 100 ∧ n % 100 ≤ 13 then lit "th"
  else
    match n % 10 with
    | 1 => lit "st"
    | 2 => lit "nd"
    | 3 => lit "rd"
    | _ => lit "th"

/-- `ordinal` (lines 579-586): `str(n) + suffix`. -/
def ordinal (n : Nat) : Str := natStr n ++ ordinalSuffix n

/-- `format_hour` (lines 778-787). -/
def format_hour (hour : Nat) : Str :=
  let h1 := if hour ≥ 12 then (if hour > 12 then hour - 12 else hour) else hour
  let suffix : Str := if hour ≥ 12 then lit "PM" else lit "AM"
  let h2 := if h1 = 0 then 12 else h1
  natStr h2 ++ suffix

/-- `ts.strftime(...)` wrapped in `try/except` with `str(ts)` as fallback
(lines 599-602): on the modelled cells the fallback always applies, since
timestamps reach the model as their rendered strings. -/
def tsFormatted (c : Cell) : Str := cellStr c

def dayNamePlural : Nat → Str
  | 0 => lit "Sundays"
  | 1 => lit "Mondays"
  | 2 => lit "Tuesdays"
  | 3 => lit "Wednesdays"
  | 4 => lit "Thursdays"
  | 5 => lit "Fridays"
  | 6 => lit "Saturdays"
  | _ => []

def monthName : Nat → Str
  | 1 => lit "January"
  | 2 => lit "February"
  | 3 => lit "March"
  | 4 => lit "April"
  | 5 => lit "May"
  | 6 => lit "June"
  | 7 => lit "July"
  | 8 => lit "August"
  | 9 => lit "September"
  | 10 => lit "October"
  | 11 => lit "November"
  | 12 => lit "December"
  | _ => []

def seasonStr : Season → Str
  | Season.summer => lit "summer"
  | Season.winter => lit "winter"
  | Season.fall => lit "fall"
  | Season.spring => lit "spring"

def entityPlural : EntityType → Str
  | EntityType.artist => lit "artists"
  | EntityType.track => lit "songs"
  | EntityType.album => lit "albums"

/-- The header condition list of lines 675-700, in append order. -/
def conditionsList (p : Parsed) : List Str :=
  (match p.day_of_week with
   | some d => [lit "on " ++ dayNamePlural d]
   | none => [])
  ++ (if natTruthy p.year then [lit "in " ++ natStr (p.year.getD 0)] else [])
  ++ (match p.time_after, p.time_before with
      | some a, none => [lit "after " ++ format_hour a]
      | none, some b => [lit "before " ++ format_hour b]
      | some a, some b => [lit "between " ++ format_hour a ++ lit " and " ++ format_hour b]
      | none, none => [])
  ++ (match p.month with
      | some m => [lit "in " ++ monthName m]
      | none =>
        match p.season with
        | some s => [lit "during " ++ seasonStr s]
        | none => [])
  ++ (match p.platform with
      | some v => if !v.isEmpty then [lit "on " ++ pyCapitalize v] else []
      | none => [])
  ++ (match p.country with
      | some v => if !v.isEmpty then [lit "in " ++ pyCapitalize v] else []
      | none => [])
  ++ (match p.mood with
      | some v => if !v.isEmpty then [lit "with a " ++ v ++ lit " mood"] else []
      | none => [])
  ++ (match p.reason_start with
      | some v => if !v.isEmpty then [lit "started via " ++ v] else []
      | none => [])

/-- The part of the header before the event clause (lines 702-709). -/
def headerBase (p : Parsed) : Str :=
  let conds := conditionsList p
  let condStr : Str := if conds.isEmpty then [] else lit " " ++ joinSep (lit " ") conds
  let actionText : Str := if p.action = Action.skipped then lit "most skipped" else lit "top"
  lit "Your " ++ actionText ++ lit " " ++ entityPlural p.entity_type ++ condStr

/-- The event clause appended at lines 710-711 (only for a truthy
`event_name`). -/
def eventClause (p : Parsed) : Str :=
  match p.event_name with
  | some nm => if !nm.isEmpty then lit " during your " ++ nm else []
  | none => []

/-- The full header of lines 708-712. -/
def headerText (p : Parsed) : Str := headerBase p ++ eventClause p ++ lit ":"

/-- `is_valid_row` (lines 714-721): `none` models a raised exception
(`.strip()` on a non-string cell, or a missing column).  The second column
is only read when the first comparison did not already decide, mirroring
the short-circuit of the Python `and`. -/
def isValidRow (et : EntityType) (row : Row) : Option Bool :=
  match et, row with
  | EntityType.artist, Cell.str s :: _ =>
    some (pyLower (pyStrip s) != lit "unknown artist")
  | EntityType.artist, _ => none
  | EntityType.track, Cell.str s0 :: rest =>
    if pyLower (pyStrip s0) == lit "unknown track" then some false
    else
      match rest with
      | Cell.str s1 :: _ => some (pyLower (pyStrip s1) != lit "unknown artist")
      | _ => none
  | EntityType.track, _ => none
  | EntityType.album, Cell.str s0 :: rest =>
    if pyLower (pyStrip s0) == lit "unknown album" then some false
    else
      match rest with
      | Cell.str s1 :: _ => some (pyLower (pyStrip s1) != lit "unknown artist")
      | _ => none
  | EntityType.album, _ => none

/-- The list comprehension of line 726: filter by `is_valid_row`, raising
(`none`) as soon as any row raises. -/
def filterValid (et : EntityType) : List Row → Option (List Row)
  | [] => some []
  | r :: t =>
    match isValidRow et r with
    | none => none
    | some b => (filterValid et t).map fun rest => if b then r :: rest else rest

/-- One `<li>` item of the rendered list (lines 744-752). -/
def renderItem (et : EntityType) (row : Row) : Option Str :=
  match et, row with
  | EntityType.track, c0 :: c1 :: _ =>
    some (lit "<li><span class='track-name'>" ++ cellStr c0 ++
      lit "</span> by <span class='artist-name'>" ++ cellStr c1 ++ lit "</span></li>")
  | EntityType.track, _ => none
  | EntityType.album, c0 :: c1 :: _ =>
    some (lit "<li><span class='album-name'>" ++ cellStr c0 ++
      lit "</span> by <span class='artist-name'>" ++ cellStr c1 ++ lit "</span></li>")
  | EntityType.album, _ => none
  | EntityType.artist, c0 :: _ =>
    some (lit "<li><span class='artist-name'>" ++ cellStr c0 ++ lit "</span></li>")
  | EntityType.artist, [] => none

def renderList (et : EntityType) : List Row → Option Str
  | [] => some []
  | r :: t => (renderItem et r).bind fun i => (renderList et t).map fun rest => i ++ rest

/-- The no-results message of lines 754-766. -/
def emptyMsg (p : Parsed) : Str :=
  match p.event_name with
  | some nm =>
    if !nm.isEmpty then
      if p.event_record_count = some 0 then
        lit "<p>No listening data found during this event period.</p>" ++
          (if strTruthy p.start_date && strTruthy p.end_date then
            lit "<p><small>Event period: " ++ p.start_date.getD [] ++ lit " to " ++
              p.end_date.getD [] ++ lit "</small></p>"
          else [])
      else lit "<p>No matching results found for your query during this event.</p>"
    else lit "<p>No results found for your query.</p>"
  | none => lit "<p>No results found for your query.</p>"

/-- The tail of the top/skipped branch (lines 739-768), applied to the
already filtered-and-truncated `valid_results`. -/
def topRender (p : Parsed) (valid : List Row) : Option Str :=
  let html0 := lit "<h2>" ++ headerText p ++ lit "</h2>"
  if valid.isEmpty then some (html0 ++ emptyMsg p)
  else
    (renderList p.entity_type valid).map fun items =>
      html0 ++ lit "<ul class='result-list'>" ++ items ++ lit "</ul>"

/-- Python `cell == 0`. -/
def cellEqZero : Cell → Bool
  | Cell.int n => n == 0
  | Cell.str _ => false

/-- Python truthiness of a cell. -/
def cellTruthy : Cell → Bool
  | Cell.int n => n != 0
  | Cell.str s => !s.isEmpty

/-- Two-decimal rendering of `skipped/total*100` (line 621-622).  The
source formats an IEEE double with `:.2f`; this models it by rational
rounding (half away from zero), which agrees on the realistic inputs.  No
claim depends on this value. -/
def pctFormat (a b : Int) : Str :=
  let scaled : Int := (2 * a * 10000 + b) / (2 * b)
  let ip := scaled / 100
  let fp := (scaled % 100).toNat
  intStr ip ++ lit "." ++ (if fp < 10 then lit "0" else []) ++ natStr fp

/-- The f-string of line 622: `parsed.get('filter_value', '')` returns the
stored value because the key always exists, so an unset filter renders as
the string `None`. -/
def filterDisplay (p : Parsed) : Str :=
  match p.filter_value with
  | some v => v
  | none => lit "None"

def pctHtml (p : Parsed) (pct : Str) : Str :=
  lit "<h2>" ++ pct ++ lit "% of my " ++ filterDisplay p ++ lit " plays were skipped.</h2>"

/-- `format_response` (lines 588-768).  `none` models an uncaught Python
exception (IndexError, ValueError or TypeError). -/
def format_response (p : Parsed) (results : List Row) : Option Str :=
  if p.action = Action.first then
    match results with
    | [] => some (lit "<h2>No matching record found for your first listen query.</h2>")
    | row :: _ =>
      match row.getLast? with
      | none => none
      | some ts =>
        let tsf := tsFormatted ts
        match p.entity_type, row with
        | EntityType.artist, e :: _ =>
          some (lit "<h2>You first listened to " ++ cellStr e ++ lit " on " ++ tsf ++ lit ".</h2>")
        | EntityType.artist, [] => none
        | EntityType.track, e0 :: e1 :: _ =>
          some (lit "<h2>You first listened to " ++ cellStr e0 ++ lit " by " ++ cellStr e1 ++
            lit " on " ++ tsf ++ lit ".</h2>")
        | EntityType.track, _ => none
        | EntityType.album, e0 :: e1 :: _ =>
          some (lit "<h2>You first listened to " ++ cellStr e0 ++ lit " by " ++ cellStr e1 ++
            lit " on " ++ tsf ++ lit ".</h2>")
        | EntityType.album, _ => none
  else if p.action = Action.percentage then
    match results with
    | [] => some (lit "<h2>No data available to calculate percentage.</h2>")
    | row :: _ =>
      match row with
      | c0 :: c1 :: rest =>
        if cellEqZero c1 then some (lit "<h2>No data available to calculate percentage.</h2>")
        else if !rest.isEmpty then none
        else if !cellTruthy c1 then some (pctHtml p (lit "0.00"))
        else
          match c0, c1 with
          | Cell.int a, Cell.int b => some (pctHtml p (pctFormat a b))
          | _, _ => none
      | _ => none
  else if p.action = Action.nth ∧ nthTruthy p.nth = true then
    match results with
    | [] =>
      some (lit "<h2>No matching record found for your " ++ natStr (p.nth.getD 0) ++
        lit " streamed track query.</h2>")
    | row :: _ =>
      match row.getLast? with
      | none => none
      | some ts =>
        let tsf := tsFormatted ts
        let os := ordinal (p.nth.getD 0)
        match p.entity_type, row with
        | EntityType.artist, e :: _ =>
          some (lit "<h2>Your " ++ os ++ lit " streamed artist was " ++ cellStr e ++
            lit " on " ++ tsf ++ lit ".</h2>")
        | EntityType.artist, [] => none
        | EntityType.track, e0 :: e1 :: _ =>
          some (lit "<h2>Your " ++ os ++ lit " streamed track was " ++ cellStr e0 ++
            lit " by " ++ cellStr e1 ++ lit " on " ++ tsf ++ lit ".</h2>")
        | EntityType.track, _ => none
        | EntityType.album, e0 :: e1 :: _ =>
          some (lit "<h2>Your " ++ os ++ lit " streamed album was " ++ cellStr e0 ++
            lit " by " ++ cellStr e1 ++ lit " on " ++ tsf ++ lit ".</h2>")
        | EntityType.album, _ => none
  else if p.action = Action.last then
    match results with
    | [] => some (lit "<h2>No matching record found for your last played query.</h2>")
    | row :: _ =>
      match row.getLast? with
      | none => none
      | some ts =>
        let tsf := tsFormatted ts
        match p.entity_type, row with
        | EntityType.artist, e :: _ =>
          some (lit "<h2>Your last played artist was " ++ cellStr e ++ lit " on " ++ tsf ++ lit ".</h2>")
        | EntityType.artist, [] => none
        | EntityType.track, e0 :: e1 :: _ =>
          some (lit "<h2>Your last played track was " ++ cellStr e0 ++ lit " by " ++ cellStr e1 ++
            lit " on " ++ tsf ++ lit ".</h2>")
        | EntityType.track, _ => none
        | EntityType.album, e0 :: e1 :: _ =>
          some (lit "<h2>Your last played album was " ++ cellStr e0 ++ lit " by " ++ cellStr e1 ++
            lit " on " ++ tsf ++ lit ".</h2>")
        | EntityType.album, _ => none
  else
    (filterValid p.entity_type results).bind fun filtered =>
      topRender p (filtered.take p.limit)

/-! ## Executor (`execute_query`, lines 789-862) -/

/-- `execute_query`: parse, synthesize, run.  The store outcome of the
synthesized query is the explicit `store` argument; any exception raised
inside the `try` block is its `Except.error` case and is converted to the
one-element sentinel row of line 860, never propagated.  The parse and
synthesis stages run exactly once, before the store call. -/
def execute_query (uid : Option Nat) (es : Str → Option EventData) (nowYear : Nat)
    (store : Except Str (List Row)) (query_text : Str) : Parsed × List Row :=
  let parsed := parse_natural_language uid es nowYear query_text
  match store with
  | Except.ok rows => (parsed, rows)
  | Except.error e => (parsed, [[Cell.str (lit "Error executing query"), Cell.str e]])

/-- The empty event store used for concrete evaluations. -/
def esEmpty : Str → Option EventData := fun _ => none

/-- A `Parsed` record with every optional field unset, the defaults of
lines 30-52 and the default action resolution (`top`, `artist`). -/
def defaultParsed : Parsed :=
  { year := none, day_of_week := none, time_after := none, time_before := none,
    season := none, month := none, action := Action.top, entity_type := EntityType.artist,
    limit := 5, filter_value := none, platform := none, country := none,
    mood := none, shuffle := none, reason_start := none, play_count := none,
    nth := none, use_count := false, start_date := none, end_date := none,
    event_name := none, event_record_count := none }

/-! ## Helper lemmas -/

theorem parseAction_mem (lq : Str) :
    parseAction lq ≠ Action.last ∧
      (parseAction lq = Action.nth ∨ parseAction lq = Action.percentage ∨
       parseAction lq = Action.first ∨ parseAction lq = Action.skipped ∨
       parseAction lq = Action.top) := by
  unfold parseAction
  split_ifs <;> simp

theorem filterValid_sound (et : EntityType) :
    ∀ (rows fr : List Row), filterValid et rows = some fr →
      ∀ r ∈ fr, isValidRow et r = some true := by
  intro rows
  induction rows with
  | nil =>
    intro fr h r hr
    simp only [filterValid, Option.some.injEq] at h
    subst h
    simp at hr
  | cons a t ih =>
    intro fr h r hr
    simp only [filterValid] at h
    cases hv : isValidRow et a with
    | none => rw [hv] at h; simp at h
    | some b =>
      rw [hv] at h
      cases hf : filterValid et t with
      | none => rw [hf] at h; simp at h
      | some ft =>
        rw [hf] at h
        simp only [Option.map_some', Option.some.injEq] at h
        subst h
        cases b with
        | true =>
          rcases List.mem_cons.mp (by simpa using hr) with hra | hrt
          · subst hra; exact hv
          · exact ih ft hf r hrt
        | false =>
          exact ih ft hf r (by simpa using hr)

theorem filterValid_total (et : EntityType) :
    ∀ rows : List Row, (∀ r ∈ rows, (isValidRow et r).isSome = true) →
      ∃ fr, filterValid et rows = some fr := by
  intro rows
  induction rows with
  | nil => intro _; exact ⟨[], rfl⟩
  | cons a t ih =>
    intro h
    obtain ⟨fr, hfr⟩ := ih fun r hr => h r (List.mem_cons_of_mem _ hr)
    have ha := h a (List.mem_cons_self a t)
    cases hv : isValidRow et a with
    | none => rw [hv] at ha; simp at ha
    | some b =>
      exact ⟨if b then a :: fr else fr, by simp [filterValid, hv, hfr]⟩

/-! ## Claim theorems -/

/-- The suffix rule as worded by the specification: 11-13 mod 100 give
`th`, otherwise the last digit decides st/nd/rd/th. -/
def claimOrdinalSuffix (n : Nat) : Str :=
  if n % 100 = 11 ∨ n % 100 = 12 ∨ n % 100 = 13 then lit "th"
  else if n % 10 = 1 then lit "st"
  else if n % 10 = 2 then lit "nd"
  else if n % 10 = 3 then lit "rd"
  else lit "th"

theorem ordinalSuffix_eq_claim (n : Nat) : ordinalSuffix n = claimOrdinalSuffix n := by
  unfold ordinalSuffix claimOrdinalSuffix
  by_cases h : 11 ≤ n % 100 ∧ n % 100 ≤ 13
  · rw [if_pos h, if_pos (by omega)]
  · rw [if_neg h, if_neg (by omega)]
    have h10 : n % 10 = 0 ∨ n % 10 = 1 ∨ n % 10 = 2 ∨ n % 10 = 3 ∨ n % 10 = 4 ∨
        n % 10 = 5 ∨ n % 10 = 6 ∨ n % 10 = 7 ∨ n % 10 = 8 ∨ n % 10 = 9 := by omega
    rcases h10 with h1 | h1 | h1 | h1 | h1 | h1 | h1 | h1 | h1 | h1 <;> rw [h1] <;> rfl

/-- C7: for every positive integer `n`, `ordinal n` is the decimal digits
of `n` followed by the standard ordinal suffix (`th` when `n % 100` lies in
11-13, else st/nd/rd/th by the last digit); in particular
`ordinal 1 = "1st"`, `ordinal 11 = "11th"`, `ordinal 22 = "22nd"` and
`ordinal 13 = "13th"`. -/
theorem C7_theorem :
    (∀ n : Nat, 0 < n → ordinal n = natStr n ++ claimOrdinalSuffix n) ∧
    ordinal 1 = lit "1st" ∧ ordinal 11 = lit "11th" ∧
    ordinal 22 = lit "22nd" ∧ ordinal 13 = lit "13th" := by
  refine ⟨fun n _ => ?_, by decide, by decide, by decide, by decide⟩
  unfold ordinal
  rw [ordinalSuffix_eq_claim]

/-- C7 witness: the general rule of `C7_theorem` applied at `n = 21`. -/
theorem C7_witness : 0 < 21 ∧ ordinal 21 = natStr 21 ++ claimOrdinalSuffix 21 :=
  ⟨by decide, C7_theorem.1 21 (by decide)⟩

def tFrankOcean : Str := lit "When did I first listen to Frank Ocean?"

/-- C9: the example query parses to action `first`, entity type `artist`
and the case-folded, punctuation-stripped filter value `frank ocean`, and
with zero result rows `format_response` renders exactly the no-record
message inside the `<h2>` markup. -/
theorem C9_theorem :
    (parse_natural_language none esEmpty 0 tFrankOcean).action = Action.first ∧
    (parse_natural_language none esEmpty 0 tFrankOcean).entity_type = EntityType.artist ∧
    (parse_natural_language none esEmpty 0 tFrankOcean).filter_value = some (lit "frank ocean") ∧
    format_response (parse_natural_language none esEmpty 0 tFrankOcean) [] =
      some (lit "<h2>No matching record found for your first listen query.</h2>") :=
  ⟨rfl, rfl, rfl, rfl⟩

def pLast : Parsed := { defaultParsed with action := Action.last }

set_option maxRecDepth 16384 in
/-- C10: every parse yields exactly one of the actions `nth`,
`percentage`, `first`, `skipped`, `top` — never `last` — although both the
synthesizer and the formatter handle `last` (the synthesized query is a
non-error `ORDER BY ... DESC` query with no parameters, and the formatter
renders the `last` no-record message). -/
theorem C10_theorem :
    (∀ (uid : Option Nat) (es : Str → Option EventData) (ny : Nat) (t : Str),
       (parse_natural_language uid es ny t).action ≠ Action.last ∧
       ((parse_natural_language uid es ny t).action = Action.nth ∨
        (parse_natural_language uid es ny t).action = Action.percentage ∨
        (parse_natural_language uid es ny t).action = Action.first ∨
        (parse_natural_language uid es ny t).action = Action.skipped ∨
        (parse_natural_language uid es ny t).action = Action.top)) ∧
    (build_sql_query none pLast).2 = [] ∧
    containsSub (lit "ORDER BY lh.timestamp DESC") (build_sql_query none pLast).1 = true ∧
    format_response pLast [] =
      some (lit "<h2>No matching record found for your last played query.</h2>") := by
  refine ⟨fun uid es ny t => ?_, rfl, by decide, rfl⟩
  exact parseAction_mem (cleanQuery t)

def pctText : Str := lit "What percentage of my Drake plays were skipped?"

def sentinelRow (m : Str) : Row := [Cell.str (lit "Error executing query"), Cell.str m]

/-- C1: at the failing input — a percentage query whose store call fails —
`execute_query` does return the sentinel pair, but `format_response`
raises (models as `none`) on that very pair, so the claimed always-a-non-
empty-string contract of the formatter does not hold on the code; with
zero rows the formatter does return a non-empty string. -/
theorem C1_theorem :
    (parse_natural_language none esEmpty 0 pctText).action = Action.percentage ∧
    execute_query none esEmpty 0 (Except.error (lit "connection refused")) pctText =
      (parse_natural_language none esEmpty 0 pctText, [sentinelRow (lit "connection refused")]) ∧
    format_response (parse_natural_language none esEmpty 0 pctText)
      [sentinelRow (lit "connection refused")] = none ∧
    format_response (parse_natural_language none esEmpty 0 pctText) [] =
      some (lit "<h2>No data available to calculate percentage.</h2>") :=
  ⟨rfl, rfl, rfl, rfl⟩

/-- C2 (amended): on any store failure `execute_query` catches the
exception and returns the parsed parameters together with the one-element
sentinel row, never propagating; on success the rows pass through
unchanged and the parse output is the same either way (the parse and
synthesis stages run exactly once, before the store call). -/
theorem C2_theorem :
    ∀ (uid : Option Nat) (es : Str → Option EventData) (ny : Nat) (m t : Str)
      (rows : List Row),
    execute_query uid es ny (Except.error m) t =
      (parse_natural_language uid es ny t,
       [[Cell.str (lit "Error executing query"), Cell.str m]]) ∧
    execute_query uid es ny (Except.ok rows) t = (parse_natural_language uid es ny t, rows) :=
  fun _ _ _ _ _ _ => ⟨rfl, rfl⟩

/-- C2 counterexample: the formatter does not special-case the sentinel
row.  For a percentage parse it raises on the sentinel (`none`), and for
the default top/artist parse it renders the sentinel like any ordinary
data row, as a list item named `Error executing query`. -/
theorem C2_counterexample :
    format_response (parse_natural_language none esEmpty 0 pctText)
      [sentinelRow (lit "boom")] = none ∧
    format_response defaultParsed [sentinelRow (lit "boom")] =
      some (lit "<h2>Your top artists:</h2><ul class='result-list'><li><span class='artist-name'>Error executing query</span></li></ul>") :=
  ⟨rfl, rfl⟩

/-- C5 (amended): a text whose cleaned form contains an ordinal token and
the word `percentage`, and no first-listen phrase, parses to action
`percentage` — the percentage keyword overrides the ordinal-derived `nth`
action. -/
theorem C5_theorem :
    ∀ (uid : Option Nat) (es : Str → Option EventData) (ny : Nat) (t : Str),
    (ordinalSearch (cleanQuery t)).isSome = true →
    containsSub (lit "percentage") (cleanQuery t) = true →
    firstCond (cleanQuery t) = false →
    (parse_natural_language uid es ny t).action = Action.percentage := by
  intro uid es ny t _ hp hf
  show parseAction (cleanQuery t) = Action.percentage
  simp [parseAction, hp, hf]

def tOrdPct : Str := lit "3rd percentage first listen"

/-- C5 counterexample: this text contains both an ordinal token and the
word `percentage`, yet it parses to action `first`, because the
first-listen branch runs after the percentage branch and overrides it. -/
theorem C5_counterexample :
    (ordinalSearch (cleanQuery tOrdPct)).isSome = true ∧
    containsSub (lit "percentage") (cleanQuery tOrdPct) = true ∧
    (parse_natural_language none esEmpty 0 tOrdPct).action = Action.first ∧
    (parse_natural_language none esEmpty 0 tOrdPct).action ≠ Action.percentage := by
  refine ⟨rfl, rfl, rfl, by decide⟩

def tPctW : Str := lit "what percentage of my 3rd plays were skipped"

/-- C5 witness: `C5_theorem` applied to a concrete percentage-plus-ordinal
query without a first-listen phrase. -/
theorem C5_witness :
    (parse_natural_language none esEmpty 0 tPctW).action = Action.percentage :=
  C5_theorem none esEmpty 0 tPctW rfl rfl rfl

theorem parseLimit_le20 (qt lq : Str) (et : EntityType) : parseLimit qt lq et ≤ 20 := by
  unfold parseLimit
  cases h1 : kwNumSearch kwList lq <;> cases h2 : altNumSearch lq <;>
    simp only [h1, h2] <;> split_ifs <;> omega

theorem parseLimit_zero (qt lq : Str) (et : EntityType) :
    parseLimit qt lq et = 0 →
      kwNumSearch kwList lq = some 0 ∨ altNumSearch lq = some 0 := by
  intro h
  cases h1 : kwNumSearch kwList lq with
  | some n =>
    simp only [parseLimit, h1] at h
    left
    have hn : n = 0 := by split_ifs at h <;> omega
    rw [hn]
  | none =>
    cases h2 : altNumSearch lq with
    | some m =>
      simp only [parseLimit, h1, h2] at h
      right
      have hm : m = 0 := by split_ifs at h <;> omega
      rw [hm]
    | none =>
      simp only [parseLimit, h1, h2] at h
      split_ifs at h <;> omega

def tTop0 : Str := lit "what are my top 0 songs"

/-- C3 counterexample: the text `what are my top 0 songs` matches the
explicit-limit pattern with `N = 0`, so `min(0, 20) = 0` is stored and the
parsed limit is 0, outside the claimed interval `[1, 20]`. -/
theorem C3_counterexample :
    (parse_natural_language none esEmpty 0 tTop0).limit = 0 ∧
    kwNumSearch kwList (cleanQuery tTop0) = some 0 :=
  ⟨rfl, rfl⟩

/-- C3 (amended): the parsed limit is always in `[0, 20]`; it can be 0
only when an explicit numeric-limit phrase supplies the number 0.  An
explicit keyword number `N` yields `min N 20` unless the favorite override
fires; with no explicit number the singular-noun heuristic yields 1 and
the default is 5; the favorite override (`favorite` present without a
number after a non-favorite ranking keyword) forces 5. -/
theorem C3_theorem :
    ∀ (uid : Option Nat) (es : Str → Option EventData) (ny : Nat) (t : Str),
    (parse_natural_language uid es ny t).limit ≤ 20 ∧
    ((parse_natural_language uid es ny t).limit = 0 →
      kwNumSearch kwList (cleanQuery t) = some 0 ∨ altNumSearch (cleanQuery t) = some 0) ∧
    (∀ n, kwNumSearch kwList (cleanQuery t) = some n → favCond (cleanQuery t) = false →
      (parse_natural_language uid es ny t).limit = min n 20) ∧
    (kwNumSearch kwList (cleanQuery t) = none → altNumSearch (cleanQuery t) = none →
      favCond (cleanQuery t) = false →
      (parse_natural_language uid es ny t).limit =
        if singularCond t (parseEntity (cleanQuery t)) then 1 else 5) ∧
    (favCond (cleanQuery t) = true → (parse_natural_language uid es ny t).limit = 5) := by
  intro uid es ny t
  have hl : (parse_natural_language uid es ny t).limit
      = parseLimit t (cleanQuery t) (parseEntity (cleanQuery t)) := rfl
  rw [hl]
  refine ⟨parseLimit_le20 _ _ _, parseLimit_zero _ _ _, ?_, ?_, ?_⟩
  · intro n h1 hfav
    unfold parseLimit
    simp [h1, hfav]
  · intro h1 h2 hfav
    unfold parseLimit
    simp [h1, h2, hfav]
  · intro hfav
    unfold parseLimit
    simp [hfav]

/-- C3 witness: `C3_theorem` applied to the concrete query
`what are my top 30 songs` — the explicit 30 is clamped to 20. -/
theorem C3_witness :
    (parse_natural_language none esEmpty 0 (lit "what are my top 30 songs")).limit = min 30 20 :=
  (C3_theorem none esEmpty 0 (lit "what are my top 30 songs")).2.2.1 30 rfl rfl

/-- C8: without a bound `user_id` the event resolver never consults the
store (the parse result does not depend on the store function) and leaves
`start_date`, `end_date` and `event_name` unset; an event store with no
matching event likewise leaves `event_name` unset; and whenever
`event_name` is unset the rendered top/skipped header carries an empty
event clause. -/
theorem C8_theorem :
    (∀ (es1 es2 : Str → Option EventData) (ny : Nat) (t : Str),
       parse_natural_language none es1 ny t = parse_natural_language none es2 ny t) ∧
    (∀ (es : Str → Option EventData) (ny : Nat) (t : Str),
       (parse_natural_language none es ny t).start_date = none ∧
       (parse_natural_language none es ny t).end_date = none ∧
       (parse_natural_language none es ny t).event_name = none) ∧
    (∀ (uid : Option Nat) (ny : Nat) (t : Str),
       (parse_natural_language uid (fun _ => none) ny t).event_name = none) ∧
    (∀ p : Parsed, p.event_name = none →
       eventClause p = [] ∧ headerText p = headerBase p ++ lit ":") := by
  refine ⟨fun es1 es2 ny t => rfl, fun es ny t => ⟨rfl, rfl, rfl⟩,
    fun uid ny t => ?_, fun p h => ?_⟩
  · cases uid with
    | none => rfl
    | some u =>
      show (parseEvent (some u) (fun _ => none) t).2.2.1 = none
      cases h : eventNameSearch t <;> simp [parseEvent, get_event_dates, h]
  · refine ⟨by simp [eventClause, h], ?_⟩
    simp [headerText, eventClause, h]

/-- C8 witness: the header conjunct of `C8_theorem` applied to the default
parse record, whose `event_name` is unset. -/
theorem C8_witness :
    eventClause defaultParsed = [] ∧
    headerText defaultParsed = headerBase defaultParsed ++ lit ":" :=
  C8_theorem.2.2.2 defaultParsed rfl

theorem whereItems_hourGE_mem (uid : Option Nat) (p : Parsed) (h : Nat)
    (hh : p.time_after = some h) :
    (hourGEClause, [Param.pint h]) ∈ whereItems uid p := by
  unfold whereItems
  refine List.mem_filterMap.mpr ⟨afterItem p, by simp, ?_⟩
  simp [afterItem, hh]

theorem whereItems_hourLT_mem (uid : Option Nat) (p : Parsed) (h : Nat)
    (hh : p.time_before = some h) :
    (hourLTClause, [Param.pint h]) ∈ whereItems uid p := by
  unfold whereItems
  refine List.mem_filterMap.mpr ⟨beforeItem p, by simp, ?_⟩
  simp [beforeItem, hh]

set_option maxRecDepth 8192 in
theorem whereItems_no_hour (uid : Option Nat) (p : Parsed)
    (ha : p.time_after = none) (hb : p.time_before = none) :
    ∀ it ∈ whereItems uid p, it.1 ≠ hourGEClause ∧ it.1 ≠ hourLTClause := by
  intro it hit
  unfold whereItems at hit
  rcases List.mem_filterMap.mp hit with ⟨o, ho, hoeq⟩
  simp only [List.mem_cons, List.not_mem_nil, or_false] at ho
  simp only [id_eq] at hoeq
  rcases ho with rfl | rfl | rfl | rfl | rfl | rfl | rfl | rfl | rfl | rfl | rfl | rfl | rfl <;>
    simp only [uidItem, yearItem, dowItem, afterItem, beforeItem, monthSeasonItem,
      filterItem, platformItem, countryItem, shuffleItem, moodItem, reasonItem, dateItem,
      ha, hb] at hoeq <;>
    (repeat' split at hoeq) <;>
    (cases hoeq; all_goals (dsimp only; exact ⟨by decide, by decide⟩))

def tAfter8pm : Str := lit "what are my top songs after 8pm"

def tBefore8am : Str := lit "what are my top songs before 8am"

/-- C6: half-open, 24-hour-normalized time-of-day extraction.  When the
`between` pattern is absent, an `after H (am|pm)?` match sets the lower
bound to the 24-hour-normalized hour and the synthesizer emits the
`>= %s` hour constraint with that bound; `before` analogously emits the
strict `< %s` constraint; `pm` adds 12 unless the hour is already at least
12, so `after 8pm` gives 20 and `before 8am` gives 8; with no time phrase
both bounds stay unset and no hour constraint appears among the
synthesized where-clauses. -/
theorem C6_theorem :
    (∀ (t : Str) (h : Nat) (pp : Option Period),
       betweenSearch (cleanQuery t) = none → afterSearch (cleanQuery t) = some (h, pp) →
       ∀ (uid : Option Nat) (es : Str → Option EventData) (ny : Nat),
         (parse_natural_language uid es ny t).time_after = some (to24 h pp)) ∧
    (∀ (t : Str) (h : Nat) (pp : Option Period),
       betweenSearch (cleanQuery t) = none → beforeSearch (cleanQuery t) = some (h, pp) →
       ∀ (uid : Option Nat) (es : Str → Option EventData) (ny : Nat),
         (parse_natural_language uid es ny t).time_before = some (to24 h pp)) ∧
    (to24 8 (some Period.pm) = 20 ∧ to24 8 (some Period.am) = 8) ∧
    (∀ (uid : Option Nat) (p : Parsed) (h : Nat), p.time_after = some h →
       (hourGEClause, [Param.pint h]) ∈ whereItems uid p) ∧
    (∀ (uid : Option Nat) (p : Parsed) (h : Nat), p.time_before = some h →
       (hourLTClause, [Param.pint h]) ∈ whereItems uid p) ∧
    (∀ (t : Str), betweenSearch (cleanQuery t) = none → afterSearch (cleanQuery t) = none →
       beforeSearch (cleanQuery t) = none →
       ∀ (uid : Option Nat) (es : Str → Option EventData) (ny : Nat),
         (parse_natural_language uid es ny t).time_after = none ∧
         (parse_natural_language uid es ny t).time_before = none) ∧
    (∀ (uid : Option Nat) (p : Parsed), p.time_after = none → p.time_before = none →
       ∀ it ∈ whereItems uid p, it.1 ≠ hourGEClause ∧ it.1 ≠ hourLTClause) ∧
    ((parse_natural_language none esEmpty 0 tAfter8pm).time_after = some 20 ∧
     (parse_natural_language none esEmpty 0 tBefore8am).time_before = some 8) := by
  refine ⟨?_, ?_, ⟨rfl, rfl⟩, whereItems_hourGE_mem, whereItems_hourLT_mem, ?_,
    whereItems_no_hour, rfl, rfl⟩
  · intro t h pp hb ha uid es ny
    show (parseTimes (cleanQuery t)).1 = some (to24 h pp)
    simp [parseTimes, hb, ha]
  · intro t h pp hb ha uid es ny
    show (parseTimes (cleanQuery t)).2 = some (to24 h pp)
    simp [parseTimes, hb, ha]
  · intro t hb ha hbe uid es ny
    constructor
    · show (parseTimes (cleanQuery t)).1 = none
      simp [parseTimes, hb, ha]
    · show (parseTimes (cleanQuery t)).2 = none
      simp [parseTimes, hb, hbe]

/-- C6 witness: the `after` and membership conjuncts of `C6_theorem`
applied to a concrete `after 10pm` query. -/
theorem C6_witness :
    (parse_natural_language none esEmpty 0 (lit "top songs after 10pm")).time_after = some 22 ∧
    (hourGEClause, [Param.pint 22]) ∈
      whereItems none (parse_natural_language none esEmpty 0 (lit "top songs after 10pm")) := by
  have h1 := C6_theorem.1 (lit "top songs after 10pm") 10 (some Period.pm) rfl rfl none esEmpty 0
  exact ⟨h1, C6_theorem.2.2.2.1 none _ 22 h1⟩

/-- Row well-formedness for the formatter's top/skipped branch: the name
columns the code reads are string cells (real result rows from the
synthesized grouped queries have this shape). -/
def rowWF (et : EntityType) (row : Row) : Bool :=
  match et, row with
  | EntityType.artist, Cell.str _ :: _ => true
  | EntityType.track, Cell.str _ :: Cell.str _ :: _ => true
  | EntityType.album, Cell.str _ :: Cell.str _ :: _ => true
  | _, _ => false

theorem isValidRow_isSome_of_wf (et : EntityType) (row : Row)
    (h : rowWF et row = true) : (isValidRow et row).isSome = true := by
  cases et with
  | artist =>
    cases row with
    | nil => simp [rowWF] at h
    | cons c rest =>
      cases c with
      | str s => simp [isValidRow]
      | int n => simp [rowWF] at h
  | track =>
    cases row with
    | nil => simp [rowWF] at h
    | cons c rest =>
      cases c with
      | int n => simp [rowWF] at h
      | str s =>
        cases rest with
        | nil => simp [rowWF] at h
        | cons c1 rest1 =>
          cases c1 with
          | int n => simp [rowWF] at h
          | str s1 => dsimp only [isValidRow]; split <;> rfl
  | album =>
    cases row with
    | nil => simp [rowWF] at h
    | cons c rest =>
      cases c with
      | int n => simp [rowWF] at h
      | str s =>
        cases rest with
        | nil => simp [rowWF] at h
        | cons c1 rest1 =>
          cases c1 with
          | int n => simp [rowWF] at h
          | str s1 => dsimp only [isValidRow]; split <;> rfl

/-- C4 (amended): for a top/skipped parse the synthesized query's final
(LIMIT) parameter is exactly twice the parsed limit, and the formatter
computes its rendered list by filtering the fetched rows through the
per-column `is_valid_row` placeholder test and then truncating to `limit`
rows — so every rendered row passes the placeholder test and the list
never exceeds `limit` items.  (Each name column is compared against its
own placeholder, not against all three; see the counterexample.) -/
theorem C4_theorem :
    ∀ (uid : Option Nat) (p : Parsed) (rows : List Row),
    (p.action = Action.top ∨ p.action = Action.skipped) →
    (build_sql_query uid p).2.getLast? = some (Param.pint (p.limit * 2)) ∧
    format_response p rows =
      (filterValid p.entity_type rows).bind (fun fr => topRender p (fr.take p.limit)) ∧
    ((∀ r ∈ rows, rowWF p.entity_type r = true) →
      ∃ fr, filterValid p.entity_type rows = some fr ∧
        (fr.take p.limit).length ≤ p.limit ∧
        (∀ r ∈ fr.take p.limit, isValidRow p.entity_type r = some true)) := by
  intro uid p rows hact
  refine ⟨?_, ?_, ?_⟩
  · rcases hact with h | h
    · unfold build_sql_query
      simp only [h]
      cases hu : p.use_count <;> simp [hu, List.getLast?_concat]
    · unfold build_sql_query
      simp only [h]
      cases hpc : p.play_count <;> simp [hpc, List.getLast?_concat]
  · rcases hact with h | h <;> (unfold format_response; simp [h])
  · intro hwf
    obtain ⟨fr, hfr⟩ :=
      filterValid_total p.entity_type rows fun r hr => isValidRow_isSome_of_wf _ _ (hwf r hr)
    refine ⟨fr, hfr, List.length_take_le _ _, fun r hr => ?_⟩
    exact filterValid_sound p.entity_type rows fr hfr r (List.take_subset _ _ hr)

def specPlaceholderNames : List Str :=
  [lit "unknown artist", lit "unknown track", lit "unknown album"]

/-- Worded from the claim: a row is placeholder-named when any of its name
columns equals one of the three reserved placeholders, case-insensitively. -/
def specPlaceholderNamed (nameCols : Nat) (row : Row) : Bool :=
  (row.take nameCols).any fun c =>
    match c with
    | Cell.str s => specPlaceholderNames.contains (pyLower s)
    | Cell.int _ => false

def pTopTrack : Parsed := { defaultParsed with entity_type := EntityType.track }

def rowUA : Row := [Cell.str (lit "Unknown Artist"), Cell.str (lit "Drake"), Cell.int 99]

/-- C4 counterexample: a track row whose track-name column is the
placeholder `Unknown Artist` is placeholder-named in the claim's sense,
yet `is_valid_row` keeps it (it only compares the track column against
`unknown track`), so the row appears in the rendered top list. -/
theorem C4_counterexample :
    specPlaceholderNamed 2 rowUA = true ∧
    filterValid EntityType.track [rowUA] = some [rowUA] ∧
    format_response pTopTrack [rowUA] =
      some (lit "<h2>Your top songs:</h2><ul class='result-list'><li><span class='track-name'>Unknown Artist</span> by <span class='artist-name'>Drake</span></li></ul>") :=
  ⟨rfl, rfl, rfl⟩

def pTopL2 : Parsed := { defaultParsed with limit := 2 }

def rowsW : List Row :=
  [[Cell.str (lit "Drake"), Cell.int 100],
   [Cell.str (lit "Unknown Artist"), Cell.int 90],
   [Cell.str (lit "A"), Cell.int 80],
   [Cell.str (lit "B"), Cell.int 70]]

/-- C4 witness: `C4_theorem` applied to a concrete top/artist parse with
limit 2 and four fetched rows, one of them the artist placeholder. -/
theorem C4_witness :
    (build_sql_query none pTopL2).2.getLast? = some (Param.pint (pTopL2.limit * 2)) ∧
    ∃ fr, filterValid pTopL2.entity_type rowsW = some fr ∧
      (fr.take pTopL2.limit).length ≤ pTopL2.limit ∧
      (∀ r ∈ fr.take pTopL2.limit, isValidRow pTopL2.entity_type r = some true) := by
  have h := C4_theorem none pTopL2 rowsW (Or.inl rfl)
  exact ⟨h.1, h.2.2 (by decide)⟩
